import Mathlib

/-!
Shallow embedding of `src/test-execute-processor.py` (ValidAI).

The script is a sequential integration test: it checks two environment
variables, uploads a file to object storage, inserts a document row via a
REST call, invokes an edge function, sleeps, and reads the run status once.

Modelling conventions:
* The outside world (environment variables, the readable test file, the
  random bytes drawn by `os.urandom(4)`, and the four HTTP responses) is a
  `World` record; the script is a pure function of it.
* Each HTTP request the script issues is recorded in order in a list of
  `HttpRequest` values (method, url, headers, body, timeout).
* An HTTP response carries the status code, the raw text and the value that
  `response.json()` would return (a `Json` tree); JSON numbers are modelled
  as integers, which covers every field the script touches.
* Python `exit(n)` becomes `Outcome.exit n`; an uncaught Python exception
  (KeyError, IndexError, TypeError, AttributeError, IOError) becomes
  `Outcome.fault f`.  Console printing is not modelled; the observable
  behaviour is the request trace plus the outcome.
-/

/-- JSON values as returned by `response.json()`.  Numbers are modelled as
integers (every number the script handles is one). -/
inductive Json where
  | null
  | bool (b : Bool)
  | num (n : Int)
  | str (s : String)
  | arr (xs : List Json)
  | obj (fields : List (String × Json))

/-- Faults: uncaught Python exceptions the script can raise. -/
inductive PyFault where
  | keyError (k : String)
  | indexError
  | typeError
  | attrError
  | ioError
deriving DecidableEq

/-- Final state of the process: a clean `exit(code)` or an uncaught
exception. -/
inductive Outcome where
  | exit (code : Nat)
  | fault (f : PyFault)
deriving DecidableEq

/-- Body of an HTTP request: raw bytes (`data=`), a JSON document
(`json=`), or nothing (GET). -/
inductive ReqBody where
  | raw (content : List Nat)
  | jsonBody (j : Json)
  | empty

/-- One HTTP request as issued by `requests.post` / `requests.get`. -/
structure HttpRequest where
  method : String
  url : String
  headers : List (String × String)
  body : ReqBody
  timeout : Option Nat

/-- One HTTP response: status code, raw text, and the value
`response.json()` parses from that text. -/
structure HttpResponse where
  status : Nat
  text : String
  json : Json

/-- Everything the script reads from the outside world. -/
structure World where
  /-- `os.getenv("NEXT_PUBLIC_SUPABASE_PUBLISHABLE_OR_ANON_KEY")`. -/
  anonKey : Option String
  /-- `os.getenv("SUPABASE_SERVICE_ROLE_KEY")`. -/
  serviceKey : Option String
  /-- The four bytes drawn by `os.urandom(4)`. -/
  randBytes : List Nat
  /-- Contents of `test-document.txt`; `none` models an unreadable file. -/
  fileContent : Option (List Nat)
  /-- Response to the storage upload (step 1). -/
  uploadResp : HttpResponse
  /-- Response to the document insert (step 2). -/
  insertResp : HttpResponse
  /-- Response to the edge-function call (step 3). -/
  functionResp : HttpResponse
  /-- Response to the run-status read (step 4). -/
  statusResp : HttpResponse

/-- Python truthiness of an `os.getenv` result: `None` and `""` are falsy
(`if not SUPABASE_ANON_KEY`). -/
def truthyEnv : Option String → Bool
  | none => false
  | some s => !s.isEmpty

/-- Python truthiness of a JSON value (`if not document_id`, `if runs`). -/
def Json.truthy : Json → Bool
  | .null => false
  | .bool b => b
  | .num n => n != 0
  | .str s => !s.isEmpty
  | .arr xs => !xs.isEmpty
  | .obj fs => !fs.isEmpty

/-- `None` is falsy. -/
@[simp] theorem Json.truthy_null : Json.truthy .null = false := rfl

/-- A non-empty list is truthy. -/
@[simp] theorem Json.truthy_arr_cons (x : Json) (xs : List Json) :
    Json.truthy (.arr (x :: xs)) = true := rfl

/-- First-match lookup in a JSON object's field list (Python dict lookup). -/
def lookupField : List (String × Json) → String → Option Json
  | [], _ => none
  | (k, v) :: fs, key => if k = key then some v else lookupField fs key

/-- Python `d[key]` with a string key: KeyError when the key is absent from
a dict, TypeError when the value is not a dict (list/str/int/… subscripted
by a string). -/
def Json.subscriptStr : Json → String → Except PyFault Json
  | .obj fs, key =>
    match lookupField fs key with
    | some v => .ok v
    | none => .error (.keyError key)
  | _, _ => .error .typeError

/-- Python `x[0]`: head of a list (IndexError when empty), first character
of a string (as a 1-character string), KeyError on a dict (no key `0`,
recorded here by its decimal spelling), TypeError otherwise. -/
def Json.subscript0 : Json → Except PyFault Json
  | .arr [] => .error .indexError
  | .arr (x :: _) => .ok x
  | .str s =>
    match s.data with
    | [] => .error .indexError
    | c :: _ => .ok (.str (String.mk [c]))
  | .obj _ => .error (.keyError "0")
  | _ => .error .typeError

/-- Python `d.get(key)`: `None` default on a dict, AttributeError when the
receiver is not a dict. -/
def Json.dictGet : Json → String → Except PyFault Json
  | .obj fs, key => .ok ((lookupField fs key).getD .null)
  | _, _ => .error .attrError

/-- Python `d.get(key, default)` with an explicit default. -/
def Json.dictGetD : Json → String → Json → Except PyFault Json
  | .obj fs, key, dflt => .ok ((lookupField fs key).getD dflt)
  | _, _, _ => .error .attrError

/-- Python `repr` of a JSON value (used by `str` on containers).  The
quote around string literals is the ASCII apostrophe, written escaped. -/
def Json.pyRepr : Json → String
  | .null => "None"
  | .bool b => if b then "True" else "False"
  | .num n => toString n
  | .str s => "\x27" ++ s ++ "\x27"
  | .arr xs => "[" ++ String.intercalate ", "
      (xs.attach.map fun x => x.1.pyRepr) ++ "]"
  | .obj fs => "\x7b" ++ String.intercalate ", "
      (fs.attach.map fun f => "\x27" ++ f.1.1 ++ "\x27: " ++ f.1.2.pyRepr) ++ "\x7d"
decreasing_by
  · have := List.sizeOf_lt_of_mem x.2
    simp only [Json.arr.sizeOf_spec]
    omega
  · have h1 := List.sizeOf_lt_of_mem f.2
    have h2 : sizeOf f.1.2 < sizeOf f.1 := by
      obtain ⟨k, v⟩ := f.1
      simp only [Prod.mk.sizeOf_spec]
      omega
    simp only [Json.obj.sizeOf_spec]
    omega

/-- Python `str` of a JSON value (as interpolated into the status URL):
strings render verbatim, everything else as its `repr`. -/
def Json.pyStr : Json → String
  | .str s => s
  | j => j.pyRepr

/-- `SUPABASE_URL` constant from the script. -/
def SUPABASE_URL : String := "https://xczippkxxdqlvaacjexj.supabase.co"

/-- `PROCESSOR_ID` constant (Contract Review Assistant). -/
def PROCESSOR_ID : String := "9024a072-211d-40fc-a64f-b9d7a7f31a72"

/-- `ORGANIZATION_ID` constant. -/
def ORGANIZATION_ID : String := "b822d5c9-706a-4e37-9d7a-c0b0417efe56"

/-- Lowercase hexadecimal digit for `n < 16` (as produced by
`bytes.hex()`). -/
def hexDigit (n : Nat) : Char :=
  if n < 10 then Char.ofNat (48 + n) else Char.ofNat (87 + n)

/-- The two lowercase hex characters of one byte. -/
def byteHex (b : Nat) : List Char := [hexDigit (b / 16), hexDigit (b % 16)]

/-- `bytes.hex()`: lowercase hex string of a byte sequence. -/
def bytesHex (bs : List Nat) : String :=
  String.mk (bs.foldr (fun b acc => byteHex b ++ acc) [])

/-- `storage_path = f"{ORGANIZATION_ID}/test-contract-{os.urandom(4).hex()}.txt"`,
as a function of the drawn random bytes. -/
def mkStoragePath (randBytes : List Nat) : String :=
  ORGANIZATION_ID ++ "/test-contract-" ++ bytesHex randBytes ++ ".txt"

/-- The storage-upload request (step 1). -/
def uploadReq (sk : String) (randBytes : List Nat) (content : List Nat) :
    HttpRequest where
  method := "POST"
  url := SUPABASE_URL ++ "/storage/v1/object/documents/" ++ mkStoragePath randBytes
  headers := [("Authorization", "Bearer " ++ sk), ("Content-Type", "text/plain")]
  body := .raw content
  timeout := none

/-- The `doc_data` JSON payload of the document insert. -/
def docData (randBytes : List Nat) (content : List Nat) : Json :=
  .obj [("name", .str "test-contract.txt"),
        ("size_bytes", .num content.length),
        ("mime_type", .str "text/plain"),
        ("storage_path", .str (mkStoragePath randBytes)),
        ("organization_id", .str ORGANIZATION_ID)]

/-- The document-insert request (step 2). -/
def insertReq (sk : String) (randBytes : List Nat) (content : List Nat) :
    HttpRequest where
  method := "POST"
  url := SUPABASE_URL ++ "/rest/v1/documents"
  headers := [("apikey", sk), ("Authorization", "Bearer " ++ sk),
              ("Content-Type", "application/json")]
  body := .jsonBody (docData randBytes content)
  timeout := none

/-- The edge-function request (step 3); the only call with a timeout. -/
def functionReq (sk : String) (document_id : Json) : HttpRequest where
  method := "POST"
  url := SUPABASE_URL ++ "/functions/v1/execute-processor-run"
  headers := [("Authorization", "Bearer " ++ sk),
              ("Content-Type", "application/json")]
  body := .jsonBody (.obj [("processor_id", .str PROCESSOR_ID),
                           ("document_id", document_id)])
  timeout := some 30

/-- The run-status read (step 4). -/
def statusReq (sk : String) (run_id : Json) : HttpRequest where
  method := "GET"
  url := SUPABASE_URL ++ "/rest/v1/runs?id=eq." ++ run_id.pyStr ++ "&select=*"
  headers := [("apikey", sk), ("Authorization", "Bearer " ++ sk)]
  body := .empty
  timeout := none

/-- `if isinstance(document, list): document = document[0]` — unwraps a
single-element list; `[0]` on an empty list raises IndexError. -/
def unwrapList : Json → Except PyFault Json
  | .arr [] => .error .indexError
  | .arr (x :: _) => .ok x
  | j => .ok j

/-- `upload_document()`: upload to storage (fail → return `None`), insert
the document row (fail → return `None`), unwrap the response and extract
`document['id']`.  Returns the requests it issued plus the returned value
(`Json.null` models Python `None`) or an uncaught exception. -/
def upload_document (w : World) (sk : String) :
    List HttpRequest × Except PyFault Json :=
  match w.fileContent with
  | none => ([], .error .ioError)
  | some file_content =>
    let req1 := uploadReq sk w.randBytes file_content
    if w.uploadResp.status ∉ [200, 201] then
      ([req1], .ok .null)
    else
      let req2 := insertReq sk w.randBytes file_content
      if w.insertResp.status ∉ [200, 201] then
        ([req1, req2], .ok .null)
      else
        match unwrapList w.insertResp.json with
        | .error f => ([req1, req2], .error f)
        | .ok document =>
          match document.subscriptStr "id" with
          | .error f => ([req1, req2], .error f)
          | .ok document_id => ([req1, req2], .ok document_id)

/-- `execute_processor_run(document_id)`: POST the payload with a
30-second timeout; on HTTP 202 return `result.get('run_id')`, otherwise
return `None`. -/
def execute_processor_run (w : World) (sk : String) (document_id : Json) :
    List HttpRequest × Except PyFault Json :=
  let req3 := functionReq sk document_id
  if w.functionResp.status = 202 then
    match w.functionResp.json.dictGet "run_id" with
    | .error f => ([req3], .error f)
    | .ok run_id => ([req3], .ok run_id)
  else
    ([req3], .ok .null)

/-- The field accesses `check_run_status` performs on the first returned
row while printing it (`run['status']`, the three operation counts,
`run['started_at']`, and `run.get('completed_at', 'N/A')`). -/
def readRunFields (run : Json) : Except PyFault Json :=
  match run.subscriptStr "status" with
  | .error f => .error f
  | .ok _ =>
  match run.subscriptStr "total_operations" with
  | .error f => .error f
  | .ok _ =>
  match run.subscriptStr "completed_operations" with
  | .error f => .error f
  | .ok _ =>
  match run.subscriptStr "failed_operations" with
  | .error f => .error f
  | .ok _ =>
  match run.subscriptStr "started_at" with
  | .error f => .error f
  | .ok _ =>
  match run.dictGetD "completed_at" (.str "N/A") with
  | .error f => .error f
  | .ok _ => .ok run

/-- `check_run_status(run_id)`: one GET; on HTTP 200 with a truthy body,
print the first row's fields and return it, otherwise return `None`. -/
def check_run_status (w : World) (sk : String) (run_id : Json) :
    List HttpRequest × Except PyFault Json :=
  let req4 := statusReq sk run_id
  if w.statusResp.status = 200 then
    let runs := w.statusResp.json
    if runs.truthy then
      match runs.subscript0 with
      | .error f => ([req4], .error f)
      | .ok run =>
        match readRunFields run with
        | .error f => ([req4], .error f)
        | .ok run => ([req4], .ok run)
    else
      ([req4], .ok .null)
  else
    ([req4], .ok .null)

/-- The `__main__` block: env-var checks, then the three step functions in
order; a falsy `document_id` or `run_id` exits 1; the result of
`check_run_status` is ignored and the script exits 0. -/
def runScript (w : World) : List HttpRequest × Outcome :=
  if truthyEnv w.anonKey = false then ([], .exit 1)
  else if truthyEnv w.serviceKey = false then ([], .exit 1)
  else
    let sk := w.serviceKey.getD ""
    match upload_document w sk with
    | (reqs1, .error f) => (reqs1, .fault f)
    | (reqs1, .ok document_id) =>
      if document_id.truthy = false then (reqs1, .exit 1)
      else
        match execute_processor_run w sk document_id with
        | (reqs3, .error f) => (reqs1 ++ reqs3, .fault f)
        | (reqs3, .ok run_id) =>
          if run_id.truthy = false then (reqs1 ++ reqs3, .exit 1)
          else
            match check_run_status w sk run_id with
            | (reqs4, .error f) => (reqs1 ++ reqs3 ++ reqs4, .fault f)
            | (reqs4, .ok _) => (reqs1 ++ reqs3 ++ reqs4, .exit 0)

/-- A nominal world: both keys set, readable file, and the four responses
of the end-to-end scenario in the spec (201, 201 with `id`, 202 with
`run_id`, 200 with one complete row). -/
def wOK : World where
  anonKey := some "anon-key"
  serviceKey := some "service-key"
  randBytes := [1, 2, 3, 4]
  fileContent := some [104, 105]
  uploadResp := { status := 200, text := "", json := .null }
  insertResp := { status := 201, text := "", json := .obj [("id", .str "doc-1")] }
  functionResp := { status := 202, text := "", json := .obj [("run_id", .str "run-1")] }
  statusResp := { status := 200, text := "",
                  json := .arr [.obj [("status", .str "completed"),
                                      ("total_operations", .num 3),
                                      ("completed_operations", .num 3),
                                      ("failed_operations", .num 0),
                                      ("started_at", .str "t0")]] }

example : (runScript wOK).2 = .exit 0 := rfl
example : (runScript wOK).1.length = 4 := rfl
example : (runScript wOK).1.map (fun r => r.method) = ["POST", "POST", "POST", "GET"] := rfl
example : (runScript wOK).1.map (fun r => r.timeout) = [none, none, some 30, none] := rfl
example : (runScript { wOK with statusResp := { status := 500, text := "", json := .null } }).2 = .exit 0 := rfl
example : (runScript { wOK with anonKey := none }) = ([], .exit 1) := rfl
example : (runScript { wOK with uploadResp := { status := 403, text := "", json := .null } }).2 = .exit 1 := rfl
example : (runScript { wOK with uploadResp := { status := 403, text := "", json := .null } }).1.length = 1 := rfl
example : (runScript { wOK with insertResp := { status := 201, text := "", json := .arr [] } }).2 = .fault .indexError := rfl
example : (runScript { wOK with insertResp := { status := 201, text := "", json := .obj [] } }).2 = .fault (.keyError "id") := rfl
example : (runScript { wOK with functionResp := { status := 202, text := "", json := .obj [] } }).2 = .exit 1 := rfl
example : (runScript { wOK with functionResp := { status := 500, text := "", json := .null } }).2 = .exit 1 := rfl
example : (runScript { wOK with functionResp := { status := 500, text := "", json := .null } }).1.length = 3 := rfl
example : mkStoragePath [0, 0, 0, 0] = "b822d5c9-706a-4e37-9d7a-c0b0417efe56/test-contract-00000000.txt" := rfl
example : mkStoragePath [255, 171, 0, 16] = "b822d5c9-706a-4e37-9d7a-c0b0417efe56/test-contract-ffab0010.txt" := rfl

/-- World with the anonymous key unset. -/
def wNoAnon : World := { wOK with anonKey := none }

/-- World whose run-status read answers HTTP 500. -/
def wStat500 : World :=
  { wOK with statusResp := { status := 500, text := "server error", json := .null } }

/-- World whose document insert answers 201 with an empty JSON list. -/
def wEmptyList : World :=
  { wOK with insertResp := { status := 201, text := "[]", json := .arr [] } }

/-- C3: if either required environment variable is absent (or empty), the
script exits 1 having issued no HTTP request. -/
theorem C3_missing_env_exits_before_any_request (w : World)
    (h : truthyEnv w.anonKey = false ∨ truthyEnv w.serviceKey = false) :
    runScript w = ([], .exit 1) := by
  unfold runScript
  rcases h with h | h
  · simp [h]
  · cases hA : truthyEnv w.anonKey <;> simp [h, hA]

theorem C3_missing_env_witness :
    truthyEnv wNoAnon.anonKey = false ∧ runScript wNoAnon = ([], .exit 1) :=
  ⟨rfl, C3_missing_env_exits_before_any_request wNoAnon (Or.inl rfl)⟩

/-- C10: when the document insert succeeds (200/201) but its JSON body is
the empty list, the `document[0]` unwrap raises an uncaught IndexError
instead of a clean `exit(1)`. -/
theorem C10_empty_list_index_fault (w : World) (bs : List Nat)
    (hA : truthyEnv w.anonKey = true) (hS : truthyEnv w.serviceKey = true)
    (hF : w.fileContent = some bs)
    (hU : w.uploadResp.status ∈ [200, 201]) (hI : w.insertResp.status ∈ [200, 201])
    (hJ : w.insertResp.json = .arr []) :
    runScript w = ([uploadReq (w.serviceKey.getD "") w.randBytes bs,
                    insertReq (w.serviceKey.getD "") w.randBytes bs],
                   .fault .indexError) := by
  unfold runScript upload_document
  simp [hA, hS, hF, hU, hI, hJ, unwrapList]

theorem C10_empty_list_index_fault_witness :
    wEmptyList.insertResp.status = 201 ∧ wEmptyList.insertResp.json = .arr [] ∧
    runScript wEmptyList = ([uploadReq "service-key" [1, 2, 3, 4] [104, 105],
                             insertReq "service-key" [1, 2, 3, 4] [104, 105]],
                            .fault .indexError) :=
  ⟨rfl, rfl, C10_empty_list_index_fault wEmptyList [104, 105] rfl rfl rfl
    (by decide) (by decide) rfl⟩

/-- C9: the anonymous key is only checked for presence and never used in
any request: two runs whose worlds differ only in the (present, non-empty)
anonymous key issue identical requests and have identical outcomes. -/
theorem C9_anon_key_noninterference (w : World) (a1 a2 : Option String)
    (h1 : truthyEnv a1 = true) (h2 : truthyEnv a2 = true) :
    runScript { w with anonKey := a1 } = runScript { w with anonKey := a2 } := by
  have hu : upload_document { w with anonKey := a1 } =
      upload_document { w with anonKey := a2 } := rfl
  have he : execute_processor_run { w with anonKey := a1 } =
      execute_processor_run { w with anonKey := a2 } := rfl
  have hc : check_run_status { w with anonKey := a1 } =
      check_run_status { w with anonKey := a2 } := rfl
  unfold runScript
  simp only [h1, h2]
  rw [hu, he, hc]

theorem C9_anon_key_noninterference_witness :
    truthyEnv (some "key-a") = true ∧ truthyEnv (some "key-b") = true ∧
    runScript { wOK with anonKey := some "key-a" } =
      runScript { wOK with anonKey := some "key-b" } :=
  ⟨rfl, rfl, C9_anon_key_noninterference wOK (some "key-a") (some "key-b") rfl rfl⟩

/-- C1 counterexample: a run in which the fourth call (the run-status
read) answers HTTP 500, yet all four requests are issued and the script
exits 0 — a non-success status that is neither fatal nor logged. -/
theorem C1_status_read_failure_exits_zero :
    wStat500.statusResp.status = 500 ∧
    (runScript wStat500).1.length = 4 ∧
    (runScript wStat500).2 = .exit 0 :=
  ⟨rfl, rfl, rfl⟩

/-- C1 (amended): with both credentials and a readable file, a non-success
status on any of the first three calls (upload, insert, function
invocation) terminates the script with exit code 1 and no further request
is issued; a non-success status on the fourth call (the run-status read)
is not fatal — the script still exits 0. -/
theorem C1_failure_semantics (w : World) (bs : List Nat)
    (hA : truthyEnv w.anonKey = true) (hS : truthyEnv w.serviceKey = true)
    (hF : w.fileContent = some bs) :
    (w.uploadResp.status ∉ [200, 201] →
      runScript w = ([uploadReq (w.serviceKey.getD "") w.randBytes bs], .exit 1)) ∧
    (w.uploadResp.status ∈ [200, 201] → w.insertResp.status ∉ [200, 201] →
      runScript w = ([uploadReq (w.serviceKey.getD "") w.randBytes bs,
                      insertReq (w.serviceKey.getD "") w.randBytes bs], .exit 1)) ∧
    (∀ doc d, w.uploadResp.status ∈ [200, 201] → w.insertResp.status ∈ [200, 201] →
      unwrapList w.insertResp.json = .ok doc → doc.subscriptStr "id" = .ok d →
      d.truthy = true → w.functionResp.status ≠ 202 →
      runScript w = ([uploadReq (w.serviceKey.getD "") w.randBytes bs,
                      insertReq (w.serviceKey.getD "") w.randBytes bs,
                      functionReq (w.serviceKey.getD "") d], .exit 1)) ∧
    (∀ doc d r, w.uploadResp.status ∈ [200, 201] → w.insertResp.status ∈ [200, 201] →
      unwrapList w.insertResp.json = .ok doc → doc.subscriptStr "id" = .ok d →
      d.truthy = true → w.functionResp.status = 202 →
      w.functionResp.json.dictGet "run_id" = .ok r → r.truthy = true →
      w.statusResp.status ≠ 200 →
      runScript w = ([uploadReq (w.serviceKey.getD "") w.randBytes bs,
                      insertReq (w.serviceKey.getD "") w.randBytes bs,
                      functionReq (w.serviceKey.getD "") d,
                      statusReq (w.serviceKey.getD "") r], .exit 0)) := by
  refine ⟨?_, ?_, ?_, ?_⟩
  · intro hU
    unfold runScript upload_document
    simp [hA, hS, hF, hU, Json.truthy]
  · intro hU hI
    unfold runScript upload_document
    simp [hA, hS, hF, hU, hI, Json.truthy]
  · intro doc d hU hI hW hId hT h202
    unfold runScript upload_document execute_processor_run
    simp [hA, hS, hF, hU, hI, hW, hId, hT, h202]
  · intro doc d r hU hI hW hId hT h202 hR hRT hStat
    unfold runScript upload_document execute_processor_run check_run_status
    simp [hA, hS, hF, hU, hI, hW, hId, hT, h202, hR, hRT, hStat]

theorem C1_failure_semantics_witness :
    truthyEnv wStat500.anonKey = true ∧ wStat500.fileContent = some [104, 105] ∧
    wStat500.statusResp.status ≠ 200 ∧
    runScript wStat500 = ([uploadReq "service-key" [1, 2, 3, 4] [104, 105],
                           insertReq "service-key" [1, 2, 3, 4] [104, 105],
                           functionReq "service-key" (.str "doc-1"),
                           statusReq "service-key" (.str "run-1")], .exit 0) :=
  ⟨rfl, rfl, by decide,
   (C1_failure_semantics wStat500 [104, 105] rfl rfl rfl).2.2.2
     (.obj [("id", .str "doc-1")]) (.str "doc-1") (.str "run-1")
     (by decide) (by decide) rfl rfl rfl rfl rfl rfl (by decide)⟩

/-- When the file is readable and the upload status is 200/201, the
document insert is always issued: `upload_document` makes exactly the
upload and insert requests, whatever it returns. -/
theorem upload_document_reqs_of_success (w : World) (sk : String) (bs : List Nat)
    (hF : w.fileContent = some bs) (hU : w.uploadResp.status ∈ [200, 201]) :
    ∃ r, upload_document w sk =
      ([uploadReq sk w.randBytes bs, insertReq sk w.randBytes bs], r) := by
  unfold upload_document
  simp only [hF]
  rw [if_neg (not_not_intro hU)]
  by_cases hI : w.insertResp.status ∉ [200, 201]
  · rw [if_pos hI]; exact ⟨_, rfl⟩
  · rw [if_neg hI]
    rcases hw : unwrapList w.insertResp.json with f | doc <;> simp only [hw]
    · exact ⟨_, rfl⟩
    · rcases hid : doc.subscriptStr "id" with f | d <;> simp only [hid] <;> exact ⟨_, rfl⟩

/-- Past the environment checks, the request trace of the whole script
extends the trace of `upload_document`. -/
theorem runScript_reqs_head (w : World)
    (hA : truthyEnv w.anonKey = true) (hS : truthyEnv w.serviceKey = true) :
    ∃ rest, (runScript w).1 =
      (upload_document w (w.serviceKey.getD "")).1 ++ rest := by
  simp only [runScript]
  rw [if_neg (by simp [hA]), if_neg (by simp [hS])]
  rcases hup : upload_document w (w.serviceKey.getD "") with ⟨reqs1, r1⟩
  cases r1 with
  | error f => exact ⟨[], by simp⟩
  | ok d =>
    dsimp only
    by_cases ht : d.truthy = false
    · rw [if_pos ht]; exact ⟨[], by simp⟩
    · rw [if_neg ht]
      rcases hex : execute_processor_run w (w.serviceKey.getD "") d with ⟨reqs3, r3⟩
      cases r3 with
      | error f => exact ⟨reqs3, rfl⟩
      | ok rid =>
        dsimp only
        by_cases hrt : rid.truthy = false
        · rw [if_pos hrt]; exact ⟨reqs3, rfl⟩
        · rw [if_neg hrt]
          rcases hch : check_run_status w (w.serviceKey.getD "") rid with ⟨reqs4, r4⟩
          cases r4 with
          | error f => exact ⟨reqs3 ++ reqs4, by simp⟩
          | ok x => exact ⟨reqs3 ++ reqs4, by simp⟩

/-- World whose storage upload answers HTTP 403. -/
def wUpload403 : World :=
  { wOK with uploadResp := { status := 403, text := "forbidden", json := .null } }

/-- C4: the storage upload treats exactly 200 and 201 as success — any
other status aborts with exit code 1 after the single upload request
(no insert, no function call, no status read), while 200/201 always
proceeds to the document insert. -/
theorem C4_upload_status_gate (w : World) (bs : List Nat)
    (hA : truthyEnv w.anonKey = true) (hS : truthyEnv w.serviceKey = true)
    (hF : w.fileContent = some bs) :
    (w.uploadResp.status ∉ [200, 201] →
      runScript w = ([uploadReq (w.serviceKey.getD "") w.randBytes bs], .exit 1)) ∧
    (w.uploadResp.status ∈ [200, 201] →
      (runScript w).1.take 2 = [uploadReq (w.serviceKey.getD "") w.randBytes bs,
                                insertReq (w.serviceKey.getD "") w.randBytes bs]) := by
  constructor
  · intro hU
    unfold runScript upload_document
    simp [hA, hS, hF, hU, Json.truthy]
  · intro hU
    obtain ⟨r, hup⟩ := upload_document_reqs_of_success w (w.serviceKey.getD "") bs hF hU
    obtain ⟨rest, hreq⟩ := runScript_reqs_head w hA hS
    rw [hup] at hreq
    rw [hreq]
    rfl

theorem C4_upload_status_gate_witness :
    (403 : Nat) ∉ [200, 201] ∧ (200 : Nat) ∈ [200, 201] ∧
    runScript wUpload403 =
      ([uploadReq "service-key" [1, 2, 3, 4] [104, 105]], .exit 1) ∧
    (runScript wOK).1.take 2 = [uploadReq "service-key" [1, 2, 3, 4] [104, 105],
                                insertReq "service-key" [1, 2, 3, 4] [104, 105]] :=
  ⟨by decide, by decide,
   (C4_upload_status_gate wUpload403 [104, 105] rfl rfl rfl).1 (by decide),
   (C4_upload_status_gate wOK [104, 105] rfl rfl rfl).2 (by decide)⟩

/-- World whose edge-function call answers HTTP 500. -/
def wFunc500 : World :=
  { wOK with functionResp := { status := 500, text := "error", json := .null } }

/-- World whose edge-function call answers 202 with a JSON object that has
no `run_id` field. -/
def wNoRunId : World :=
  { wOK with functionResp := { status := 202, text := "\x7b\x7d", json := .obj [] } }

/-- World whose document insert answers 201 with a JSON object that has no
`id` field. -/
def wNoId : World :=
  { wOK with insertResp := { status := 201, text := "",
                             json := .obj [("name", .str "x")] } }

/-- C5: the run is accepted exactly on HTTP 202 — then the run identifier
is extracted from the JSON body with `result.get('run_id')`; on any other
status the step returns the failure sentinel `None`, and the script exits
1 after exactly three requests (one single function call, no retry, no
status read). -/
theorem C5_accept_only_202 (w : World) (bs : List Nat)
    (hA : truthyEnv w.anonKey = true) (hS : truthyEnv w.serviceKey = true)
    (hF : w.fileContent = some bs) :
    (w.functionResp.status = 202 → ∀ d : Json,
      execute_processor_run w (w.serviceKey.getD "") d =
        ([functionReq (w.serviceKey.getD "") d], w.functionResp.json.dictGet "run_id")) ∧
    (w.functionResp.status ≠ 202 → ∀ d : Json,
      execute_processor_run w (w.serviceKey.getD "") d =
        ([functionReq (w.serviceKey.getD "") d], .ok .null)) ∧
    (∀ doc d, w.uploadResp.status ∈ [200, 201] → w.insertResp.status ∈ [200, 201] →
      unwrapList w.insertResp.json = .ok doc → doc.subscriptStr "id" = .ok d →
      d.truthy = true → w.functionResp.status ≠ 202 →
      runScript w = ([uploadReq (w.serviceKey.getD "") w.randBytes bs,
                      insertReq (w.serviceKey.getD "") w.randBytes bs,
                      functionReq (w.serviceKey.getD "") d], .exit 1)) := by
  refine ⟨?_, ?_, ?_⟩
  · intro h202 d
    unfold execute_processor_run
    rcases hg : w.functionResp.json.dictGet "run_id" with f | rid <;> simp [h202, hg]
  · intro h202 d
    unfold execute_processor_run
    simp [h202]
  · intro doc d hU hI hW hId hT h202
    unfold runScript upload_document execute_processor_run
    simp [hA, hS, hF, hU, hI, hW, hId, hT, h202]

theorem C5_accept_only_202_witness :
    wFunc500.functionResp.status ≠ 202 ∧
    runScript wFunc500 = ([uploadReq "service-key" [1, 2, 3, 4] [104, 105],
                           insertReq "service-key" [1, 2, 3, 4] [104, 105],
                           functionReq "service-key" (.str "doc-1")], .exit 1) :=
  ⟨by decide,
   (C5_accept_only_202 wFunc500 [104, 105] rfl rfl rfl).2.2
     (.obj [("id", .str "doc-1")]) (.str "doc-1")
     (by decide) (by decide) rfl rfl rfl (by decide)⟩

/-- C6 counterexample: a 202 function response whose JSON object lacks
`run_id` does NOT raise an unhandled fault — `result.get('run_id')`
returns `None` and the script exits cleanly with code 1. -/
theorem C6_missing_run_id_no_fault :
    wNoRunId.functionResp.status = 202 ∧
    wNoRunId.functionResp.json = .obj [] ∧
    lookupField [] "run_id" = none ∧
    (runScript wNoRunId).2 = .exit 1 ∧
    (∀ f, (runScript wNoRunId).2 ≠ .fault f) :=
  ⟨rfl, rfl, rfl, rfl, by
    intro f h
    rw [show (runScript wNoRunId).2 = .exit 1 from rfl] at h
    exact Outcome.noConfusion h⟩

/-- C6 (amended): a missing `id` field in the document-insert response
raises an uncaught KeyError (no guard), but a missing `run_id` field in
the 202 function response does not raise — the guarded accessor
`result.get('run_id')` yields `None` and the script exits cleanly with
code 1. -/
theorem C6_missing_field_semantics :
    (∀ (w : World) (bs : List Nat) (fs : List (String × Json)),
      truthyEnv w.anonKey = true → truthyEnv w.serviceKey = true →
      w.fileContent = some bs →
      w.uploadResp.status ∈ [200, 201] → w.insertResp.status ∈ [200, 201] →
      unwrapList w.insertResp.json = .ok (.obj fs) →
      lookupField fs "id" = none →
      (runScript w).2 = .fault (.keyError "id")) ∧
    (∀ (w : World) (bs : List Nat) (gs : List (String × Json)) (doc d : Json),
      truthyEnv w.anonKey = true → truthyEnv w.serviceKey = true →
      w.fileContent = some bs →
      w.uploadResp.status ∈ [200, 201] → w.insertResp.status ∈ [200, 201] →
      unwrapList w.insertResp.json = .ok doc → doc.subscriptStr "id" = .ok d →
      d.truthy = true →
      w.functionResp.status = 202 → w.functionResp.json = .obj gs →
      lookupField gs "run_id" = none →
      (runScript w).2 = .exit 1) := by
  constructor
  · intro w bs fs hA hS hF hU hI hW hid
    unfold runScript upload_document
    simp [hA, hS, hF, hU, hI, hW, Json.subscriptStr, hid]
  · intro w bs gs doc d hA hS hF hU hI hW hId hT h202 hFJ hrid
    unfold runScript upload_document execute_processor_run
    simp [hA, hS, hF, hU, hI, hW, hId, hT, h202, hFJ, Json.dictGet, hrid]

theorem C6_missing_field_semantics_witness :
    (runScript wNoId).2 = .fault (.keyError "id") ∧
    (runScript wNoRunId).2 = .exit 1 :=
  ⟨C6_missing_field_semantics.1 wNoId [104, 105] [("name", .str "x")]
     rfl rfl rfl (by decide) (by decide) rfl rfl,
   C6_missing_field_semantics.2 wNoRunId [104, 105] []
     (.obj [("id", .str "doc-1")]) (.str "doc-1")
     rfl rfl rfl (by decide) (by decide) rfl rfl rfl rfl rfl rfl⟩

/-- World satisfying every success condition the claim lists (200/201
upload, 201 insert with `id`, 202 with `run_id`, 200 with a non-empty row
list) — but whose single status row is an object without the printed
fields. -/
def wRowNoFields : World :=
  { wOK with statusResp := { status := 200, text := "", json := .arr [.obj []] } }

/-- C2 counterexample: all four endpoints answer with the success statuses
the claim enumerates (the status read returns 200 with a non-empty row
list), yet the script does not exit 0 — printing the first row raises an
uncaught KeyError because the row lacks a `status` field. -/
theorem C2_success_statuses_not_sufficient :
    wRowNoFields.uploadResp.status = 200 ∧
    wRowNoFields.insertResp.status = 201 ∧
    wRowNoFields.insertResp.json = .obj [("id", .str "doc-1")] ∧
    wRowNoFields.functionResp.status = 202 ∧
    wRowNoFields.functionResp.json = .obj [("run_id", .str "run-1")] ∧
    wRowNoFields.statusResp.status = 200 ∧
    wRowNoFields.statusResp.json = .arr [.obj []] ∧
    (runScript wRowNoFields).2 = .fault (.keyError "status") :=
  ⟨rfl, rfl, rfl, rfl, rfl, rfl, rfl, rfl⟩

/-- C2 (amended): when both environment variables are set, the file is
readable, and every endpoint responds successfully — 200/201 for the
upload; 200/201 for the insert with a truthy `id`; 202 with a truthy
`run_id`; 200 with a row list whose first element is an object carrying
the printed fields (`status`, the three operation counts, `started_at`) —
the script issues exactly the four requests in order and exits 0. -/
theorem C2_happy_path (w : World) (bs : List Nat)
    (fs gs rfs : List (String × Json)) (d r : Json) (rest : List Json)
    (s1 s2 s3 s4 s5 : Json)
    (hA : truthyEnv w.anonKey = true) (hS : truthyEnv w.serviceKey = true)
    (hF : w.fileContent = some bs)
    (hU : w.uploadResp.status ∈ [200, 201])
    (hI : w.insertResp.status ∈ [200, 201])
    (hIJ : unwrapList w.insertResp.json = .ok (.obj fs))
    (hid : lookupField fs "id" = some d) (hdT : d.truthy = true)
    (h202 : w.functionResp.status = 202)
    (hFJ : w.functionResp.json = .obj gs)
    (hrid : lookupField gs "run_id" = some r) (hrT : r.truthy = true)
    (h200 : w.statusResp.status = 200)
    (hSJ : w.statusResp.json = .arr (Json.obj rfs :: rest))
    (hf1 : lookupField rfs "status" = some s1)
    (hf2 : lookupField rfs "total_operations" = some s2)
    (hf3 : lookupField rfs "completed_operations" = some s3)
    (hf4 : lookupField rfs "failed_operations" = some s4)
    (hf5 : lookupField rfs "started_at" = some s5) :
    runScript w = ([uploadReq (w.serviceKey.getD "") w.randBytes bs,
                    insertReq (w.serviceKey.getD "") w.randBytes bs,
                    functionReq (w.serviceKey.getD "") d,
                    statusReq (w.serviceKey.getD "") r], .exit 0) ∧
    (runScript w).1.map (fun q => q.method) = ["POST", "POST", "POST", "GET"] := by
  have hmain : runScript w = ([uploadReq (w.serviceKey.getD "") w.randBytes bs,
                    insertReq (w.serviceKey.getD "") w.randBytes bs,
                    functionReq (w.serviceKey.getD "") d,
                    statusReq (w.serviceKey.getD "") r], .exit 0) := by
    unfold runScript upload_document execute_processor_run check_run_status readRunFields
    simp [hA, hS, hF, hU, hI, hIJ, Json.subscriptStr, hid, hdT, h202, hFJ,
          Json.dictGet, hrid, hrT, h200, hSJ, Json.subscript0,
          Json.dictGetD, hf1, hf2, hf3, hf4, hf5]
  refine ⟨hmain, ?_⟩
  rw [hmain]
  rfl

theorem C2_happy_path_witness :
    truthyEnv wOK.anonKey = true ∧ wOK.uploadResp.status = 200 ∧
    wOK.insertResp.status = 201 ∧ wOK.functionResp.status = 202 ∧
    wOK.statusResp.status = 200 ∧
    runScript wOK = ([uploadReq "service-key" [1, 2, 3, 4] [104, 105],
                      insertReq "service-key" [1, 2, 3, 4] [104, 105],
                      functionReq "service-key" (.str "doc-1"),
                      statusReq "service-key" (.str "run-1")], .exit 0) :=
  ⟨rfl, rfl, rfl, rfl, rfl,
   (C2_happy_path wOK [104, 105]
     [("id", .str "doc-1")] [("run_id", .str "run-1")]
     [("status", .str "completed"), ("total_operations", .num 3),
      ("completed_operations", .num 3), ("failed_operations", .num 0),
      ("started_at", .str "t0")]
     (.str "doc-1") (.str "run-1") []
     (.str "completed") (.num 3) (.num 3) (.num 0) (.str "t0")
     rfl rfl rfl (by decide) (by decide) rfl rfl rfl rfl rfl rfl rfl rfl rfl
     rfl rfl rfl rfl rfl).1⟩

/-- `execute_processor_run` always issues exactly its one POST request. -/
theorem execute_processor_run_reqs (w : World) (sk : String) (d : Json) :
    (execute_processor_run w sk d).1 = [functionReq sk d] := by
  unfold execute_processor_run
  by_cases h : w.functionResp.status = 202
  · rw [if_pos h]
    rcases hg : w.functionResp.json.dictGet "run_id" with f | rid <;> simp only [hg]
  · rw [if_neg h]

/-- `check_run_status` always issues exactly its one GET request. -/
theorem check_run_status_reqs (w : World) (sk : String) (rid : Json) :
    (check_run_status w sk rid).1 = [statusReq sk rid] := by
  unfold check_run_status
  by_cases h : w.statusResp.status = 200
  · rw [if_pos h]
    by_cases ht : w.statusResp.json.truthy = true
    · rw [if_pos ht]
      rcases h0 : w.statusResp.json.subscript0 with f | run <;> simp only [h0]
      rcases hr : readRunFields run with f | run2 <;> simp only [hr]
    · rw [if_neg ht]
  · rw [if_neg h]

/-- The requests `upload_document` can issue: none (unreadable file), the
upload alone, or the upload followed by the insert. -/
theorem upload_document_reqs_cases (w : World) (sk : String) :
    (upload_document w sk).1 = [] ∨
    (∃ bs, w.fileContent = some bs ∧
      ((upload_document w sk).1 = [uploadReq sk w.randBytes bs] ∨
       (upload_document w sk).1 =
         [uploadReq sk w.randBytes bs, insertReq sk w.randBytes bs])) := by
  unfold upload_document
  rcases hf : w.fileContent with _ | bs <;> simp only [hf]
  · exact Or.inl (by trivial)
  · refine Or.inr ⟨bs, rfl, ?_⟩
    by_cases hU : w.uploadResp.status ∉ [200, 201]
    · rw [if_pos hU]; exact Or.inl (by trivial)
    · rw [if_neg hU]
      by_cases hI : w.insertResp.status ∉ [200, 201]
      · rw [if_pos hI]; exact Or.inr (by trivial)
      · rw [if_neg hI]
        rcases hw : unwrapList w.insertResp.json with f | doc <;> simp only [hw]
        · exact Or.inr (by trivial)
        · rcases hid : doc.subscriptStr "id" with f | d <;> simp only [hid] <;>
            exact Or.inr (by trivial)

/-- If `upload_document` returns a truthy value, the file was read and
both the upload and the insert were issued with success statuses. -/
theorem upload_document_spec (w : World) (sk : String)
    (reqs : List HttpRequest) (d : Json)
    (hup : upload_document w sk = (reqs, Except.ok d)) (ht : d.truthy = true) :
    ∃ bs, w.fileContent = some bs ∧
      reqs = [uploadReq sk w.randBytes bs, insertReq sk w.randBytes bs] ∧
      w.uploadResp.status ∈ [200, 201] ∧ w.insertResp.status ∈ [200, 201] := by
  unfold upload_document at hup
  rcases hf : w.fileContent with _ | bs <;> simp only [hf] at hup
  · exact absurd hup (by simp)
  · refine ⟨bs, rfl, ?_⟩
    by_cases hU : w.uploadResp.status ∉ [200, 201]
    · rw [if_pos hU] at hup
      rw [Prod.mk.injEq] at hup
      obtain ⟨-, h2⟩ := hup
      injection h2 with h3
      rw [← h3] at ht
      simp at ht
    · rw [if_neg hU] at hup
      by_cases hI : w.insertResp.status ∉ [200, 201]
      · rw [if_pos hI] at hup
        rw [Prod.mk.injEq] at hup
        obtain ⟨-, h2⟩ := hup
        injection h2 with h3
        rw [← h3] at ht
        simp at ht
      · rw [if_neg hI] at hup
        rcases hw : unwrapList w.insertResp.json with f | doc <;> simp only [hw] at hup
        · exact absurd hup (by simp)
        · rcases hid : doc.subscriptStr "id" with f | d0 <;> simp only [hid] at hup
          · exact absurd hup (by simp)
          · rw [Prod.mk.injEq] at hup
            exact ⟨hup.1.symm, not_not.mp hU, not_not.mp hI⟩

/-- C8: in every execution, the sequence of issued requests carries the
timeouts `none, none, 30 s, none` (a prefix of it when the script stops
early): only the third call — the function invocation — has an explicit
timeout, and it is 30 seconds. -/
theorem C8_only_function_call_has_timeout (w : World) :
    ∃ k, (runScript w).1.map (fun q => q.timeout) =
      [none, none, some 30, none].take k := by
  by_cases hA : truthyEnv w.anonKey = false
  · exact ⟨0, by simp [runScript, hA]⟩
  by_cases hS : truthyEnv w.serviceKey = false
  · exact ⟨0, by simp [runScript, hA, hS]⟩
  have hshape := upload_document_reqs_cases w (w.serviceKey.getD "")
  simp only [runScript]
  rw [if_neg hA, if_neg hS]
  rcases hup : upload_document w (w.serviceKey.getD "") with ⟨reqs1, r1⟩
  rw [hup] at hshape
  dsimp only at hshape
  have hk1 : ∃ k, reqs1.map (fun q => q.timeout) = [none, none, some 30, none].take k := by
    rcases hshape with h | ⟨bs, _, h | h⟩
    · exact ⟨0, by simp [h]⟩
    · exact ⟨1, by simp [h, uploadReq]⟩
    · exact ⟨2, by simp [h, uploadReq, insertReq]⟩
  cases r1 with
  | error f => exact hk1
  | ok d =>
    dsimp only
    by_cases ht : d.truthy = false
    · rw [if_pos ht]; exact hk1
    · rw [if_neg ht]
      have ht' : d.truthy = true := by revert ht; cases d.truthy <;> simp
      obtain ⟨bs, -, hreqs1, -, -⟩ :=
        upload_document_spec w (w.serviceKey.getD "") reqs1 d hup ht'
      rcases hex : execute_processor_run w (w.serviceKey.getD "") d with ⟨reqs3, r3⟩
      have hreqs3 : reqs3 = [functionReq (w.serviceKey.getD "") d] := by
        have h3 := execute_processor_run_reqs w (w.serviceKey.getD "") d
        rw [hex] at h3
        exact h3
      cases r3 with
      | error f =>
        exact ⟨3, by simp [hreqs1, hreqs3, uploadReq, insertReq, functionReq]⟩
      | ok rid =>
        dsimp only
        by_cases hrt : rid.truthy = false
        · rw [if_pos hrt]
          exact ⟨3, by simp [hreqs1, hreqs3, uploadReq, insertReq, functionReq]⟩
        · rw [if_neg hrt]
          rcases hch : check_run_status w (w.serviceKey.getD "") rid with ⟨reqs4, r4⟩
          have hreqs4 : reqs4 = [statusReq (w.serviceKey.getD "") rid] := by
            have h4 := check_run_status_reqs w (w.serviceKey.getD "") rid
            rw [hch] at h4
            exact h4
          cases r4 with
          | error f =>
            exact ⟨4, by simp [hreqs1, hreqs3, hreqs4, uploadReq, insertReq,
                               functionReq, statusReq]⟩
          | ok x =>
            exact ⟨4, by simp [hreqs1, hreqs3, hreqs4, uploadReq, insertReq,
                               functionReq, statusReq]⟩

/-- A list of length four is literally a four-element list. -/
theorem list_length_four {α : Type} (l : List α) (h : l.length = 4) :
    ∃ a b c d, l = [a, b, c, d] := by
  rcases l with _ | ⟨a, l⟩
  · simp at h
  rcases l with _ | ⟨b, l⟩
  · simp at h
  rcases l with _ | ⟨c, l⟩
  · simp at h
  rcases l with _ | ⟨d, l⟩
  · simp at h
  rcases l with _ | ⟨e, l⟩
  · exact ⟨a, b, c, d, rfl⟩
  · simp at h

/-- `hexDigit` is injective on digits. -/
theorem hexDigit_inj16 : ∀ m n : Fin 16, hexDigit m.val = hexDigit n.val → m = n := by
  decide

/-- Two bytes with the same two hex digits are equal. -/
theorem byte_of_hexDigits_eq (a b : Nat) (ha : a < 256) (hb : b < 256)
    (h1 : hexDigit (a / 16) = hexDigit (b / 16))
    (h2 : hexDigit (a % 16) = hexDigit (b % 16)) : a = b := by
  have d1 := hexDigit_inj16 ⟨a / 16, by omega⟩ ⟨b / 16, by omega⟩ h1
  have d2 := hexDigit_inj16 ⟨a % 16, by omega⟩ ⟨b % 16, by omega⟩ h2
  have e1 : a / 16 = b / 16 := congrArg Fin.val d1
  have e2 : a % 16 = b % 16 := congrArg Fin.val d2
  omega

/-- C7 counterexample: it is not true that every pair of invocations of
the path construction yields distinct paths — two invocations that draw
the same four random bytes construct the same path. -/
theorem C7_paths_can_collide :
    ¬ (∀ r1 r2 : List Nat, r1.length = 4 → (∀ x ∈ r1, x < 256) →
        r2.length = 4 → (∀ x ∈ r2, x < 256) →
        mkStoragePath r1 ≠ mkStoragePath r2) :=
  fun h => h [0, 0, 0, 0] [0, 0, 0, 0] rfl (by decide) rfl (by decide) rfl

/-- C7 (amended): the storage paths of two invocations coincide exactly
when the four random bytes drawn by the two invocations coincide —
distinct draws always give distinct paths (the hex suffix is injective),
equal draws give equal paths. -/
theorem C7_storage_path_inj (r1 r2 : List Nat)
    (h1len : r1.length = 4) (h1b : ∀ x ∈ r1, x < 256)
    (h2len : r2.length = 4) (h2b : ∀ x ∈ r2, x < 256) :
    mkStoragePath r1 = mkStoragePath r2 ↔ r1 = r2 := by
  constructor
  · intro h
    obtain ⟨a, b, c, d, rfl⟩ := list_length_four r1 h1len
    obtain ⟨e, f, g, i, rfl⟩ := list_length_four r2 h2len
    have ba : a < 256 := h1b a (by simp)
    have bb : b < 256 := h1b b (by simp)
    have bc : c < 256 := h1b c (by simp)
    have bd : d < 256 := h1b d (by simp)
    have be : e < 256 := h2b e (by simp)
    have bf : f < 256 := h2b f (by simp)
    have bg : g < 256 := h2b g (by simp)
    have bi : i < 256 := h2b i (by simp)
    have hd := congrArg String.data h
    simp only [mkStoragePath, String.data_append, List.append_assoc] at hd
    have hd1 := List.append_cancel_left hd
    have hd2 := List.append_cancel_left hd1
    have hd3 := List.append_cancel_right hd2
    simp only [bytesHex, List.foldr_cons, List.foldr_nil, byteHex,
               List.cons_append, List.nil_append, List.cons.injEq,
               and_true] at hd3
    obtain ⟨q1, q2, q3, q4, q5, q6, q7, q8⟩ := hd3
    have e1 := byte_of_hexDigits_eq a e ba be q1 q2
    have e2 := byte_of_hexDigits_eq b f bb bf q3 q4
    have e3 := byte_of_hexDigits_eq c g bc bg q5 q6
    have e4 := byte_of_hexDigits_eq d i bd bi q7 q8
    rw [e1, e2, e3, e4]
  · intro h
    rw [h]

theorem C7_storage_path_inj_witness :
    ([1, 2, 3, 4] : List Nat).length = 4 ∧
    ([1, 2, 3, 5] : List Nat).length = 4 ∧
    (mkStoragePath [1, 2, 3, 4] = mkStoragePath [1, 2, 3, 5] ↔
      ([1, 2, 3, 4] : List Nat) = [1, 2, 3, 5]) :=
  ⟨rfl, rfl,
   C7_storage_path_inj [1, 2, 3, 4] [1, 2, 3, 5] rfl (by decide) rfl (by decide)⟩
